import Mathlib

/-!
Verification of the message-framing and body-transfer layer of the hyper
HTTP engine, embedded from src/http/mod.rs: the keep-alive policy, the
Stream transfer bridge, the AsyncWriter outbound writer, the parser
dispatcher, and the RawStatus interchange representation.
-/

namespace Hyper

/-- HTTP protocol versions, from the external `version::HttpVersion` enum. -/
inductive HttpVersion where
  | Http09
  | Http10
  | Http11
  | Http20
deriving DecidableEq

/-- Tokens of the Connection header, from the external
`header::ConnectionOption` enum: the keep-alive token, the close token, or
an arbitrary other token. -/
inductive ConnectionOption where
  | keepAlive
  | close
  | connectionHeader (value : String)
deriving DecidableEq

/-- The part of `header::Headers` that src/http/mod.rs reads: the result of
`headers.get::<Connection>()`, i.e. the optional token list of the
Connection header (`none` when the header is absent). -/
structure Headers where
  connection : Option (List ConnectionOption)
deriving DecidableEq

/-- Embedding of `should_keep_alive` (src/http/mod.rs lines 78-86). The
Rust match has guard clauses that fall through to the catch-all `true` arm
when the guard fails, which the if-then-else branches reproduce. -/
def should_keep_alive (version : HttpVersion) (headers : Headers) : Bool :=
  match version, headers.connection with
  | HttpVersion.Http10, none => false
  | HttpVersion.Http10, some conn =>
      if !(conn.contains ConnectionOption.keepAlive) then false else true
  | HttpVersion.Http11, some conn =>
      if conn.contains ConnectionOption.close then false else true
  | _, _ => true

/-- Error of `mpsc::Sender::send`: the receiving (reactor) side is gone. -/
inductive SendError where
  | disconnected
deriving DecidableEq

/-- Error returned by the tick transfer handle's pause and resume calls. -/
inductive TickError where
  | gone
deriving DecidableEq

/-- A synchronous invocation performed on a registered `Read` callback:
either `on_data` with a byte chunk or `on_eof`. -/
inductive ReadEvent where
  | onData (bytes : List Nat)
  | onEof
deriving DecidableEq

/-- The `StreamState` enum (src/http/mod.rs lines 100-103): the desired
disposition sent from consumer to reactor. `Reading` carries the registered
callback, identified here by a number standing for the boxed callback. -/
inductive StreamState where
  | Paused
  | Reading (on_read : Nat)
deriving DecidableEq

/-- A request issued on the tick transfer handle by the Stream. -/
inductive TransferReq where
  | resume
  | pause
deriving DecidableEq

/-- The observable effects of one `Stream` operation: the synchronous
callback invocations, the `StreamState` messages sent on the control
channel `tx`, and the requests issued on the transfer handle. -/
structure StreamEffects where
  cbEvents : List ReadEvent
  sent : List StreamState
  transfer : List TransferReq
deriving DecidableEq

/-- The `Stream` struct (src/http/mod.rs lines 88-92). Its `tx` sender and
`transfer` handle are modeled through the `StreamEffects` trace of each
operation; the state the operations read and write is the prefetch buffer
`buf`. -/
structure Stream where
  buf : List Nat
deriving DecidableEq

/-- Embedding of `Stream::read` (src/http/mod.rs lines 114-124). If the
prefetch buffer is non-empty, `on_data` is invoked with the buffered bytes,
the buffer is truncated to empty, `on_eof` is invoked, and the function
returns without a send or a resume. Otherwise one `Reading(on_read)`
message is sent and one `resume()` is requested; the code discards both
results (`let _ = ...`), so the outcomes `sendRes` and `resumeRes` supplied
by the environment are ignored. -/
def Stream.read (s : Stream) (on_read : Nat)
    (sendRes : Except SendError Unit) (resumeRes : Except TickError Unit) :
    Stream × StreamEffects :=
  if !s.buf.isEmpty then
    (⟨[]⟩, ⟨[ReadEvent.onData s.buf, ReadEvent.onEof], [], []⟩)
  else
    let _ := sendRes
    let _ := resumeRes
    (s, ⟨[], [StreamState.Reading on_read], [TransferReq.resume]⟩)

/-- Embedding of `Stream::pause` (src/http/mod.rs lines 126-129): one
`Paused` message is sent and one `pause()` is requested on the transfer
handle; both results are discarded (`let _ = ...`), so the outcomes
`sendRes` and `pauseRes` supplied by the environment are ignored. -/
def Stream.pause (s : Stream)
    (sendRes : Except SendError Unit) (pauseRes : Except TickError Unit) :
    Stream × StreamEffects :=
  let _ := sendRes
  let _ := pauseRes
  (s, ⟨[], [StreamState.Paused], [TransferReq.pause]⟩)

/-- The tick transfer handle as seen by `AsyncWriter`: the sequence of
byte chunks handed to its `write`. -/
structure TickTransfer where
  writes : List (List Nat)
deriving DecidableEq

/-- A write request on the tick transfer handle appends the chunk. -/
def TickTransfer.write (t : TickTransfer) (data : List Nat) : TickTransfer :=
  ⟨t.writes ++ [data]⟩

/-- An error of `std::io`; the type is inhabited so that returning `ok` is
a real commitment of the writer. -/
inductive IoError where
  | other
deriving DecidableEq

/-- The `AsyncWriter` struct (src/http/mod.rs lines 132-134): it owns one
transfer handle. -/
structure AsyncWriter where
  transfer : TickTransfer
deriving DecidableEq

/-- Embedding of `Write::write` for `AsyncWriter` (src/http/mod.rs lines
147-151): takes the length, forwards the data to the transfer handle, and
returns `Ok(len)`. -/
def AsyncWriter.write (w : AsyncWriter) (data : List Nat) :
    AsyncWriter × Except IoError Nat :=
  let len := data.length
  (⟨w.transfer.write data⟩, Except.ok len)

/-- Embedding of `Write::flush` for `AsyncWriter` (src/http/mod.rs lines
153-155): does nothing and returns `Ok(())`. -/
def AsyncWriter.flush (w : AsyncWriter) : AsyncWriter × Except IoError Unit :=
  (w, Except.ok ())

/-- The `Incoming<S>` message head (src/http/mod.rs lines 41-48). -/
structure Incoming (S : Type) where
  version : HttpVersion
  subject : S
  headers : Headers

/-- The `ParseResult<T>` alias (src/http/mod.rs line 163):
`Result<Option<(Incoming<T>, usize)>, E>` with the crate error type `E`
kept abstract. -/
def ParseResult (E S : Type) : Type := Except E (Option (Incoming S × Nat))

/-- Embedding of the dispatch function `parse` (src/http/mod.rs lines
165-168). The HTTP/1.x parser `h1::parse` lives in src/http/h1.rs, which is
outside the provided sources, so it is passed in as a parameter; the
dispatcher forwards the byte slice to it unconditionally. -/
def parse {E S : Type} (h1parse : List Nat → ParseResult E S)
    (rdr : List Nat) : ParseResult E S :=
  h1parse rdr

/-- The `RawStatus` struct (src/http/mod.rs line 59): a u16 status code and
a reason phrase. Derived equality is structural, comparing both fields. -/
structure RawStatus where
  code : Nat
  reason : String
deriving DecidableEq

/-- The Serialize impl for `RawStatus` (src/http/mod.rs lines 62-66): the
interchange representation is the pair `(code, reason)`. -/
def RawStatus.serialize (s : RawStatus) : Nat × String :=
  (s.code, s.reason)

/-- The Deserialize impl for `RawStatus` (src/http/mod.rs lines 69-74):
reads a `(u16, String)` pair and rebuilds the status. -/
def RawStatus.deserialize (p : Nat × String) : RawStatus :=
  ⟨p.1, p.2⟩

/-- C1: every row of the keep-alive decision table holds: Http10 with no
Connection header gives false; Http10 with a Connection header lacking the
keep-alive token gives false; Http10 with the keep-alive token gives true;
Http11 with the close token gives false; Http11 with no Connection header,
or with one lacking the close token, gives true. -/
theorem keep_alive_table (conn : List ConnectionOption) :
    should_keep_alive HttpVersion.Http10 ⟨none⟩ = false ∧
    (conn.contains ConnectionOption.keepAlive = false →
      should_keep_alive HttpVersion.Http10 ⟨some conn⟩ = false) ∧
    (conn.contains ConnectionOption.keepAlive = true →
      should_keep_alive HttpVersion.Http10 ⟨some conn⟩ = true) ∧
    (conn.contains ConnectionOption.close = true →
      should_keep_alive HttpVersion.Http11 ⟨some conn⟩ = false) ∧
    should_keep_alive HttpVersion.Http11 ⟨none⟩ = true ∧
    (conn.contains ConnectionOption.close = false →
      should_keep_alive HttpVersion.Http11 ⟨some conn⟩ = true) := by
  refine ⟨rfl, ?_, ?_, ?_, rfl, ?_⟩ <;>
    intro h <;> simp at h <;> simp [should_keep_alive, h]

/-- C1 witness: the table evaluated at the singleton token lists. -/
theorem keep_alive_table_witness :
    should_keep_alive HttpVersion.Http10 ⟨some [ConnectionOption.keepAlive]⟩ = true ∧
    should_keep_alive HttpVersion.Http11 ⟨some [ConnectionOption.close]⟩ = false :=
  ⟨(keep_alive_table [ConnectionOption.keepAlive]).2.2.1 (by decide),
   (keep_alive_table [ConnectionOption.close]).2.2.2.1 (by decide)⟩

/-- C2 counterexample: it is not true that a Connection header containing
the close token forces false regardless of version and of other tokens:
for Http10 with tokens [close, keep-alive], the keep-alive guard passes and
the catch-all arm returns true. -/
theorem close_forces_false_counterexample :
    ¬ (∀ (v : HttpVersion) (conn : List ConnectionOption),
        conn.contains ConnectionOption.close = true →
        should_keep_alive v ⟨some conn⟩ = false) := by
  intro h
  have hx := h HttpVersion.Http10
    [ConnectionOption.close, ConnectionOption.keepAlive] (by decide)
  exact absurd hx (by decide)

/-- C2 (amended): the close token forces false for Http11 regardless of
other tokens, and for Http10 only when the keep-alive token is absent; the
keep-alive token forces true for Http10 regardless of other tokens, and
for Http11 only when the close token is absent. -/
theorem close_keepalive_forcing (conn : List ConnectionOption) :
    (conn.contains ConnectionOption.close = true →
      should_keep_alive HttpVersion.Http11 ⟨some conn⟩ = false) ∧
    (conn.contains ConnectionOption.close = true →
      conn.contains ConnectionOption.keepAlive = false →
      should_keep_alive HttpVersion.Http10 ⟨some conn⟩ = false) ∧
    (conn.contains ConnectionOption.keepAlive = true →
      should_keep_alive HttpVersion.Http10 ⟨some conn⟩ = true) ∧
    (conn.contains ConnectionOption.keepAlive = true →
      conn.contains ConnectionOption.close = false →
      should_keep_alive HttpVersion.Http11 ⟨some conn⟩ = true) := by
  refine ⟨?_, ?_, ?_, ?_⟩
  · intro h; simp at h; simp [should_keep_alive, h]
  · intro h h2; simp at h h2; simp [should_keep_alive, h, h2]
  · intro h; simp at h; simp [should_keep_alive, h]
  · intro h h2; simp at h h2; simp [should_keep_alive, h, h2]

/-- C2 witness: the forcing rules evaluated at singleton token lists. -/
theorem close_keepalive_forcing_witness :
    should_keep_alive HttpVersion.Http11 ⟨some [ConnectionOption.close]⟩ = false ∧
    should_keep_alive HttpVersion.Http10 ⟨some [ConnectionOption.keepAlive]⟩ = true :=
  ⟨(close_keepalive_forcing [ConnectionOption.close]).1 (by decide),
   (close_keepalive_forcing [ConnectionOption.keepAlive]).2.2.1 (by decide)⟩

/-- C3: reading from a Stream with a non-empty prefetch buffer invokes
`on_data` exactly once with exactly the buffered bytes, then `on_eof`
exactly once, leaves the buffer empty, sends nothing on the control
channel, and issues no resume request on the transfer handle. -/
theorem read_buffered (s : Stream) (on_read : Nat)
    (sendRes : Except SendError Unit) (resumeRes : Except TickError Unit)
    (h : s.buf ≠ []) :
    s.read on_read sendRes resumeRes =
      (⟨[]⟩, ⟨[ReadEvent.onData s.buf, ReadEvent.onEof], [], []⟩) := by
  obtain ⟨b⟩ := s
  cases b with
  | nil => exact absurd rfl h
  | cons x xs => simp [Stream.read]

/-- C3 witness: a one-byte buffer is delivered synchronously. -/
theorem read_buffered_witness :
    Stream.read ⟨[7]⟩ 0 (Except.ok ()) (Except.ok ()) =
      (⟨[]⟩, ⟨[ReadEvent.onData [7], ReadEvent.onEof], [], []⟩) :=
  read_buffered ⟨[7]⟩ 0 (Except.ok ()) (Except.ok ()) (by decide)

/-- C4: reading from a Stream with an empty prefetch buffer sends exactly
one `Reading` message carrying the callback, issues exactly one resume
request, invokes no callback synchronously, and leaves the Stream
unchanged. -/
theorem read_empty_registers (s : Stream) (on_read : Nat)
    (sendRes : Except SendError Unit) (resumeRes : Except TickError Unit)
    (h : s.buf = []) :
    s.read on_read sendRes resumeRes =
      (s, ⟨[], [StreamState.Reading on_read], [TransferReq.resume]⟩) := by
  simp [Stream.read, h]

/-- C4 witness: an empty Stream registers the callback and resumes. -/
theorem read_empty_registers_witness :
    Stream.read ⟨[]⟩ 3 (Except.ok ()) (Except.ok ()) =
      (⟨[]⟩, ⟨[], [StreamState.Reading 3], [TransferReq.resume]⟩) :=
  read_empty_registers ⟨[]⟩ 3 (Except.ok ()) (Except.ok ()) rfl

/-- C5: pausing any Stream, whatever its buffer, sends exactly one `Paused`
message on the control channel and issues exactly one pause request on the
transfer handle, with no callback invocation and no change to the
Stream. -/
theorem pause_effects (s : Stream)
    (sendRes : Except SendError Unit) (pauseRes : Except TickError Unit) :
    s.pause sendRes pauseRes =
      (s, ⟨[], [StreamState.Paused], [TransferReq.pause]⟩) := rfl

/-- C6: the results of `Stream.read` and `Stream.pause` do not depend on
the outcomes of the channel send, the resume, or the pause: any success or
failure of those operations yields the same returned state and effects,
so no error is propagated to the caller. -/
theorem stream_failures_absorbed (s : Stream) (on_read : Nat)
    (r1 r1' : Except SendError Unit) (r2 r2' : Except TickError Unit)
    (p1 p1' : Except SendError Unit) (p2 p2' : Except TickError Unit) :
    s.read on_read r1 r2 = s.read on_read r1' r2' ∧
    s.pause p1 p2 = s.pause p1' p2' :=
  ⟨rfl, rfl⟩

/-- C7: the dispatch function `parse` returns exactly the result of the
HTTP/1.x parser applied to the same bytes, with no branching, filtering,
or normalization of its own. -/
theorem parse_forwards {E S : Type} (h1parse : List Nat → ParseResult E S)
    (rdr : List Nat) :
    parse h1parse rdr = h1parse rdr := rfl

/-- C8: `AsyncWriter.write` forwards the data to the transfer handle and
returns `ok` with the full length, never an error or a partial count, and
`AsyncWriter.flush` changes nothing and returns `ok`. -/
theorem write_full_flush_noop (w : AsyncWriter) (data : List Nat) :
    (w.write data).2 = Except.ok data.length ∧
    (w.write data).1.transfer.writes = w.transfer.writes ++ [data] ∧
    w.flush = (w, Except.ok ()) :=
  ⟨rfl, rfl, rfl⟩

/-- C9: serializing any `RawStatus` to its interchange pair and
deserializing yields a structurally equal value (both code and reason
compared); in particular this holds for code 404 with reason Not Found. -/
theorem rawstatus_roundtrip (s : RawStatus) :
    RawStatus.deserialize (RawStatus.serialize s) = s := rfl

/-- C10: pausing leaves the prefetch buffer unchanged, and when it is
non-empty the next read still delivers exactly the buffered bytes followed
by end-of-data. -/
theorem pause_preserves_buffer (s : Stream) (on_read : Nat)
    (p1 : Except SendError Unit) (p2 : Except TickError Unit)
    (r1 : Except SendError Unit) (r2 : Except TickError Unit)
    (h : s.buf ≠ []) :
    (s.pause p1 p2).1.buf = s.buf ∧
    ((s.pause p1 p2).1.read on_read r1 r2).2.cbEvents =
      [ReadEvent.onData s.buf, ReadEvent.onEof] := by
  refine ⟨rfl, ?_⟩
  obtain ⟨b⟩ := s
  cases b with
  | nil => exact absurd rfl h
  | cons x xs => simp [Stream.pause, Stream.read]

/-- C10 witness: a paused Stream with one buffered byte still delivers it
in full on the next read. -/
theorem pause_preserves_buffer_witness :
    ((Stream.pause ⟨[9]⟩ (Except.ok ()) (Except.ok ())).1.buf = [9]) ∧
    (((Stream.pause ⟨[9]⟩ (Except.ok ()) (Except.ok ())).1.read 0
        (Except.ok ()) (Except.ok ())).2.cbEvents =
      [ReadEvent.onData [9], ReadEvent.onEof]) :=
  pause_preserves_buffer ⟨[9]⟩ 0 (Except.ok ()) (Except.ok ())
    (Except.ok ()) (Except.ok ()) (by decide)

end Hyper
